import Mathlib

/-!
Shallow embedding of the stack-navigator package (`createStackNavigator` and
the declarations in `packages/stack/src/types.tsx`), together with theorems
checking the specification's claims against it.

Conventions: the TypeScript `number` type is modelled as `Rat`; `undefined` /
optional fields as `Option`; `void` as `Unit`; `Animated.Node<T>` (from
react-native-reanimated, consumed as a black box) as a wrapper holding a value
of type `T`.
-/

namespace StackNav

/-- Models `Animated.Node<T>`: an animated node holding a value of type `α`.
The reanimated node graph is external to this package; only the carried value
matters for the data contracts here. -/
structure AnimatedNode (α : Type) where
  value : α
  deriving DecidableEq, Repr

/-- `Layout` (types.tsx line 67): `{ width: number; height: number }`. -/
structure Layout where
  width : Rat
  height : Rat
  deriving DecidableEq, Repr

/-- `GestureDirection` (types.tsx line 69): `'horizontal' | 'vertical'`. -/
inductive GestureDirection
  | horizontal
  | vertical
  deriving DecidableEq, Repr

/-- The event names of `StackNavigationEventMap` (types.tsx lines 18-27). -/
inductive StackNavigationEventName
  | transitionStart
  | transitionEnd
  deriving DecidableEq, Repr

/-- The payload carried by both transition events: `{ closing: boolean }`. -/
structure TransitionEventPayload where
  closing : Bool
  deriving DecidableEq, Repr

/-- `StackNavigationEventMap` (types.tsx lines 18-27): maps each event name to
its payload type; both `transitionStart` and `transitionEnd` carry
`{ closing: boolean }`. -/
def StackNavigationEventMap : StackNavigationEventName → Type :=
  fun _ => TransitionEventPayload

/-- The stack-specific extension of the navigation prop
(`StackNavigationProp`, types.tsx lines 43-65): `push` takes a route name and
an optional params object (the conditional tuple type
`[RouteName] | [RouteName, ParamList[RouteName]]` always allows omitting the
params), `pop` takes an optional count, `popToTop` takes no arguments; all
three return `void`. -/
structure StackNavigationPropExt (RouteName Params : Type) where
  push : RouteName → Option Params → Unit
  pop : Option Rat → Unit
  popToTop : Unit → Unit

/-- Interpolated style values are loosely-typed style dictionaries in the
source (typed `any`); modelled as key-value lists. -/
abbrev Style := List (String × Rat)

/-- The `{ progress: Animated.Node<number> }` records used for `current` and
`next` in the interpolation props. -/
structure ProgressRef where
  progress : AnimatedNode Rat
  deriving DecidableEq, Repr

/-- The TypeScript literal type `0 | 1` used for the `closing` node. -/
def ZeroOne := { n : Rat // n = 0 ∨ n = 1 }

/-- The `layouts` record of `StackCardInterpolationProps`: `{ screen: Layout }`. -/
structure ScreenLayouts where
  screen : Layout
  deriving DecidableEq, Repr

/-- The `insets` record of `StackCardInterpolationProps`:
`{ top, right, bottom, left : number }`. -/
structure CardInsets where
  top : Rat
  right : Rat
  bottom : Rat
  left : Rat
  deriving DecidableEq, Repr

/-- `StackCardInterpolationProps` (types.tsx lines 439-485): the inputs given
to a card style interpolator. `next` is absent when the animating screen is
the last one; `closing` is an animated node whose value is `0 | 1`. -/
structure StackCardInterpolationProps where
  current : ProgressRef
  next : Option ProgressRef
  index : Rat
  closing : AnimatedNode ZeroOne
  layouts : ScreenLayouts
  insets : CardInsets

/-- `StackCardInterpolatedStyle` (types.tsx lines 487-504): interpolated
styles for the container, the card, the overlay and the shadow. -/
structure StackCardInterpolatedStyle where
  containerStyle : Option Style
  cardStyle : Option Style
  overlayStyle : Option Style
  shadowStyle : Option Style
  deriving DecidableEq, Repr

/-- `StackCardStyleInterpolator` (types.tsx lines 506-508). -/
def StackCardStyleInterpolator := StackCardInterpolationProps → StackCardInterpolatedStyle

/-- The `layouts` record of `StackHeaderInterpolationProps`: screen layout
plus optionally-measured title and back-button-label layouts. -/
structure HeaderLayouts where
  screen : Layout
  title : Option Layout
  leftLabel : Option Layout
  deriving DecidableEq, Repr

/-- `StackHeaderInterpolationProps` (types.tsx lines 510-547). -/
structure StackHeaderInterpolationProps where
  current : ProgressRef
  next : Option ProgressRef
  layouts : HeaderLayouts
  deriving DecidableEq, Repr

/-- `StackHeaderInterpolatedStyle` (types.tsx lines 549-570). -/
structure StackHeaderInterpolatedStyle where
  leftLabelStyle : Option Style
  leftButtonStyle : Option Style
  rightButtonStyle : Option Style
  titleStyle : Option Style
  backgroundStyle : Option Style
  deriving DecidableEq, Repr

/-- `StackHeaderStyleInterpolator` (types.tsx lines 572-574). -/
def StackHeaderStyleInterpolator := StackHeaderInterpolationProps → StackHeaderInterpolatedStyle

/-- `Animated.EasingFunction`: a numeric easing curve, external to this
package; modelled as a function on numbers. -/
def EasingFunction := Rat → Rat

/-- `SpringConfig` (types.tsx lines 421-428). -/
structure SpringConfig where
  damping : Rat
  mass : Rat
  stiffness : Rat
  restSpeedThreshold : Rat
  restDisplacementThreshold : Rat
  overshootClamping : Bool

/-- `TimingConfig` (types.tsx lines 430-433). -/
structure TimingConfig where
  duration : Rat
  easing : EasingFunction

/-- `TransitionSpec` (types.tsx lines 435-437): a tagged union of a spring
animation and a timing animation. -/
inductive TransitionSpec
  | spring (config : SpringConfig)
  | timing (config : TimingConfig)

/-- The `transitionSpec` record of `TransitionPreset` (types.tsx lines
584-593): one spec for adding a screen (`open`, a Lean keyword, hence
`open_`) and one for removing a screen (`close`). -/
structure TransitionSpecPair where
  open_ : TransitionSpec
  close : TransitionSpec

/-- `TransitionPreset` (types.tsx lines 576-602). -/
structure TransitionPreset where
  gestureDirection : GestureDirection
  transitionSpec : TransitionSpecPair
  cardStyleInterpolator : StackCardStyleInterpolator
  headerStyleInterpolator : StackHeaderStyleInterpolator

/-- `StackDescriptor` (types.tsx lines 235-240) instantiates the external
`Descriptor` type from the core package; only its presence in a scene matters
here, so it is carried as an abstract record keyed by the route key. -/
structure StackDescriptor where
  key : String
  deriving DecidableEq, Repr

/-- The `progress` record of `Scene` (types.tsx lines 83-98): `current` is
always present, `next` and `previous` are optional. -/
structure SceneProgress where
  current : AnimatedNode Rat
  next : Option (AnimatedNode Rat)
  previous : Option (AnimatedNode Rat)
  deriving DecidableEq, Repr

/-- `Scene<T>` (types.tsx lines 71-99). -/
structure Scene (T : Type) where
  route : T
  descriptor : StackDescriptor
  progress : SceneProgress

/-- Modelled from the spec: the stack view (`views/Stack/StackView`, not under
`src/`) recomputes scenes each render pass from the current screen list; the
scene for the screen at position `i` takes `current` from that screen's own
progress value, `next` from the screen stacked above it (absent for the
topmost, i.e. last, screen) and `previous` from the screen below it (absent
for the bottommost, i.e. first, screen). -/
def sceneProgressAt (ps : List (AnimatedNode Rat)) (i : Nat) (h : i < ps.length) :
    SceneProgress where
  current := ps.get ⟨i, h⟩
  next := if h2 : i + 1 < ps.length then some (ps.get ⟨i + 1, h2⟩) else none
  previous := if h3 : 0 < i then some (ps.get ⟨i - 1, by omega⟩) else none

/-- The `gestureResponseDistance` option (types.tsx lines 296-305):
independent per-direction overrides. Per the source's field documentation,
the `vertical` field is the distance for the horizontal direction (default
25) and the `horizontal` field the distance for the vertical direction
(default 135). -/
structure GestureResponseDistance where
  vertical : Option Rat
  horizontal : Option Rat
  deriving DecidableEq, Repr

/-- Modelled from the spec: the gesture gating code (`views/Stack/Card`, not
under `src/`) picks the edge-response distance for the active gesture
direction from the `gestureResponseDistance` option, falling back to the
documented defaults — 25 for the horizontal gesture direction and 135 for
the vertical gesture direction — when the corresponding field is not set. -/
def resolveGestureResponseDistance (dir : GestureDirection)
    (o : GestureResponseDistance) : Rat :=
  match dir with
  | .horizontal => o.vertical.getD 25
  | .vertical => o.horizontal.getD 135

/-- The `enabled` flag that `StackNavigator` passes to `KeyboardManager`:
`keyboardHandlingEnabled !== false`. `none` models leaving the
`keyboardHandlingEnabled` option `undefined`. -/
def keyboardManagerEnabled (keyboardHandlingEnabled : Option Bool) : Bool :=
  match keyboardHandlingEnabled with
  | some false => false
  | _ => true

/-- The kinds of actions this navigator dispatches. -/
inductive StackActionType
  | popToTop
  deriving DecidableEq, Repr

/-- A navigation action as dispatched by the navigator: an action type plus
the `target` state key the navigator attaches. -/
structure StackAction where
  type : StackActionType
  target : Option String
  deriving DecidableEq, Repr

/-- `StackActions.popToTop()` from the external `@react-navigation/routers`
package: a pop-to-top action with no target of its own (the navigator spreads
in the `target` itself). -/
def StackActions.popToTop : StackAction :=
  { type := .popToTop, target := none }

/-- The synchronous part of the `tabPress` listener in `StackNavigator`: it
reads `navigation.isFocused()` and schedules the rest on a later animation
frame via `requestAnimationFrame`; it dispatches no action itself. Returns
the (empty) list of actions dispatched synchronously during event delivery
together with the captured focus flag. -/
def tabPressListenerSync (isFocusedNow : Bool) : List StackAction × Bool :=
  ([], isFocusedNow)

/-- The body of the `requestAnimationFrame` callback scheduled by the
`tabPress` listener: on a later frame it checks `state.index > 0`, the focus
flag captured at event time, and `e.defaultPrevented` as it stands at frame
time, and if all hold dispatches `{ ...StackActions.popToTop(), target:
state.key }`. Returns the action passed to `navigation.dispatch`, if any. -/
def tabPressFrameCallback (index : Nat) (stateKey : String) (isFocused : Bool)
    (defaultPrevented : Bool) : Option StackAction :=
  if decide (index > 0) && isFocused && !defaultPrevented then
    some { StackActions.popToTop with target := some stateKey }
  else
    none

/-- The complete `tabPress` handling of `StackNavigator`: the listener
captures the focus flag synchronously at event time, then the dispatch
decision runs on the next animation frame against the `defaultPrevented`
flag as it stands there. -/
def tabPressBehavior (index : Nat) (stateKey : String) (isFocusedAtEvent : Bool)
    (defaultPreventedAtFrame : Bool) : Option StackAction :=
  tabPressFrameCallback index stateKey (tabPressListenerSync isFocusedAtEvent).2
    defaultPreventedAtFrame

/-! Sample values used by witnesses. -/

/-- A concrete card-interpolation input. -/
def sampleCardProps : StackCardInterpolationProps where
  current := ⟨⟨1/2⟩⟩
  next := none
  index := 0
  closing := ⟨⟨0, Or.inl rfl⟩⟩
  layouts := ⟨⟨360, 640⟩⟩
  insets := ⟨20, 0, 0, 0⟩

/-- A concrete header-interpolation input. -/
def sampleHeaderProps : StackHeaderInterpolationProps where
  current := ⟨⟨1⟩⟩
  next := none
  layouts := ⟨⟨360, 640⟩, none, none⟩

/-- A card interpolator returning no styles. -/
def constCardInterpolator : StackCardStyleInterpolator := fun _ => ⟨none, none, none, none⟩

/-- A header interpolator returning no styles. -/
def constHeaderInterpolator : StackHeaderStyleInterpolator :=
  fun _ => ⟨none, none, none, none, none⟩

/-- A concrete two-screen progress list. -/
def samplePs : List (AnimatedNode Rat) := [⟨0⟩, ⟨1⟩]

/-- The first index of `samplePs` is in bounds. -/
theorem samplePs_pos : 0 < samplePs.length := by decide

/-! Claim theorems. -/

/-- C1: the `tabPress` handling dispatches exactly when the stack's index is
greater than 0, the navigator was focused, and no listener called
`preventDefault`; the dispatched action is a `popToTop` targeted at the
stack's own state key, and in every other case no action is dispatched. -/
theorem tabPress_popToTop (index : Nat) (stateKey : String)
    (isFocused defaultPrevented : Bool) :
    tabPressBehavior index stateKey isFocused defaultPrevented =
      if 0 < index ∧ isFocused = true ∧ defaultPrevented = false then
        some { type := .popToTop, target := some stateKey }
      else
        none := by
  unfold tabPressBehavior tabPressFrameCallback tabPressListenerSync StackActions.popToTop
  cases isFocused <;> cases defaultPrevented <;>
    by_cases hi : 0 < index <;> simp_all

/-- C2: the navigator's event map has exactly two events, `transitionStart`
and `transitionEnd`, and each carries a payload that is exactly a boolean
field named `closing`. -/
theorem eventMap_two_transition_events :
    (∀ e : StackNavigationEventName, e = .transitionStart ∨ e = .transitionEnd) ∧
    StackNavigationEventName.transitionStart ≠ StackNavigationEventName.transitionEnd ∧
    (∀ e, StackNavigationEventMap e = TransitionEventPayload) ∧
    (∀ p : TransitionEventPayload, p = ⟨p.closing⟩) := by
  refine ⟨fun e => ?_, by simp, fun e => rfl, fun p => rfl⟩
  cases e
  · exact Or.inl rfl
  · exact Or.inr rfl

/-- C3: the stack extension of the navigation prop consists of exactly the
three operations `push` (route name plus optional params), `pop` (optional
count) and `popToTop` (no arguments), all returning nothing: two extensions
agreeing on the three operations are equal, and every call returns `Unit`. -/
theorem navigationProp_three_stack_operations (R P : Type) :
    (∀ x y : StackNavigationPropExt R P,
      x.push = y.push → x.pop = y.pop → x.popToTop = y.popToTop → x = y) ∧
    (∀ (x : StackNavigationPropExt R P) (n : R) (p : Option P), x.push n p = ()) ∧
    (∀ (x : StackNavigationPropExt R P) (c : Option Rat), x.pop c = ()) ∧
    (∀ x : StackNavigationPropExt R P, x.popToTop () = ()) := by
  refine ⟨fun x y h1 h2 h3 => ?_, fun _ _ _ => rfl, fun _ _ => rfl, fun _ => rfl⟩
  cases x
  cases y
  simp only at h1 h2 h3
  simp [h1, h2, h3]

/-- Witness for C3 at concrete inputs. -/
theorem navigationProp_three_stack_operations_witness :
    (⟨fun _ _ => (), fun _ => (), fun _ => ()⟩ : StackNavigationPropExt Unit Unit) =
      ⟨fun _ _ => (), fun _ => (), fun _ => ()⟩ :=
  (navigationProp_three_stack_operations Unit Unit).1 _ _ rfl rfl rfl

/-- C4: the card style interpolator's input consists exactly of the current
progress, an optional next-screen progress, the stack index, a closing flag
restricted to 0 or 1, the screen layout, and insets with top/right/bottom/
left; its output consists exactly of container, card, overlay and shadow
style descriptors (stated as the 0-or-1 restriction on `closing` plus
extensionality over exactly those fields). -/
theorem cardInterpolator_io_shape :
    (∀ p : StackCardInterpolationProps,
      p.closing.value.val = 0 ∨ p.closing.value.val = 1) ∧
    (∀ p q : StackCardInterpolationProps,
      p.current = q.current → p.next = q.next → p.index = q.index →
      p.closing = q.closing → p.layouts = q.layouts → p.insets = q.insets → p = q) ∧
    (∀ i j : CardInsets,
      i.top = j.top → i.right = j.right → i.bottom = j.bottom → i.left = j.left → i = j) ∧
    (∀ s t : StackCardInterpolatedStyle,
      s.containerStyle = t.containerStyle → s.cardStyle = t.cardStyle →
      s.overlayStyle = t.overlayStyle → s.shadowStyle = t.shadowStyle → s = t) := by
  refine ⟨fun p => p.closing.value.property, fun p q h1 h2 h3 h4 h5 h6 => ?_,
    fun i j h1 h2 h3 h4 => ?_, fun s t h1 h2 h3 h4 => ?_⟩
  · cases p; cases q; simp_all
  · cases i; cases j; simp_all
  · cases s; cases t; simp_all

/-- Witness for C4 at concrete inputs. -/
theorem cardInterpolator_io_shape_witness :
    sampleCardProps = sampleCardProps ∧
    (⟨20, 0, 0, 0⟩ : CardInsets) = ⟨20, 0, 0, 0⟩ ∧
    (⟨none, none, none, none⟩ : StackCardInterpolatedStyle) = ⟨none, none, none, none⟩ :=
  ⟨cardInterpolator_io_shape.2.1 sampleCardProps sampleCardProps rfl rfl rfl rfl rfl rfl,
   cardInterpolator_io_shape.2.2.1 _ _ rfl rfl rfl rfl,
   cardInterpolator_io_shape.2.2.2 _ _ rfl rfl rfl rfl⟩

/-- C5: card and header style interpolators are deterministic — two calls
with identical inputs yield identical outputs (the embedding has no hidden
state or randomness an interpolator could read). -/
theorem interpolators_deterministic :
    (∀ (f : StackCardStyleInterpolator) (p q : StackCardInterpolationProps),
      p = q → f p = f q) ∧
    (∀ (g : StackHeaderStyleInterpolator) (p q : StackHeaderInterpolationProps),
      p = q → g p = g q) :=
  ⟨fun f _ _ h => congrArg f h, fun g _ _ h => congrArg g h⟩

/-- Witness for C5 at a concrete interpolator and input. -/
theorem interpolators_deterministic_witness :
    constCardInterpolator sampleCardProps = constCardInterpolator sampleCardProps ∧
    constHeaderInterpolator sampleHeaderProps = constHeaderInterpolator sampleHeaderProps :=
  ⟨interpolators_deterministic.1 constCardInterpolator sampleCardProps sampleCardProps rfl,
   interpolators_deterministic.2 constHeaderInterpolator sampleHeaderProps sampleHeaderProps rfl⟩

/-- C6: every transition spec is exactly a timing animation (duration +
easing) or a spring animation (damping, mass, stiffness, rest-speed and
rest-displacement thresholds, overshoot clamping), and the per-screen
transition configuration is a pair of such specs for opening and closing. -/
theorem transitionSpec_two_variants :
    (∀ s : TransitionSpec, (∃ c, s = .timing c) ∨ (∃ c, s = .spring c)) ∧
    (∀ c : SpringConfig,
      c = ⟨c.damping, c.mass, c.stiffness, c.restSpeedThreshold,
        c.restDisplacementThreshold, c.overshootClamping⟩) ∧
    (∀ c : TimingConfig, c = ⟨c.duration, c.easing⟩) ∧
    (∀ p : TransitionSpecPair, p = ⟨p.open_, p.close⟩) ∧
    (∀ t : TransitionPreset, t.transitionSpec = ⟨t.transitionSpec.open_, t.transitionSpec.close⟩) := by
  refine ⟨fun s => ?_, fun c => rfl, fun c => rfl, fun p => rfl, fun t => rfl⟩
  cases s with
  | spring c => exact Or.inr ⟨c, rfl⟩
  | timing c => exact Or.inl ⟨c, rfl⟩

/-- C7: in the scene computed for position `i`, `current` is that screen's
own progress, `next` is absent exactly when the screen is the last (topmost)
one, and `previous` is absent exactly when it is the first (bottommost) one. -/
theorem scene_progress_neighbors (ps : List (AnimatedNode Rat)) (i : Nat)
    (h : i < ps.length) :
    (sceneProgressAt ps i h).current = ps.get ⟨i, h⟩ ∧
    ((sceneProgressAt ps i h).next = none ↔ i = ps.length - 1) ∧
    ((sceneProgressAt ps i h).previous = none ↔ i = 0) := by
  unfold sceneProgressAt
  refine ⟨rfl, ?_, ?_⟩ <;> split <;> simp <;> omega

/-- Witness for C7 on a concrete two-screen stack at index 0. -/
theorem scene_progress_neighbors_witness :
    (sceneProgressAt samplePs 0 samplePs_pos).current = samplePs.get ⟨0, samplePs_pos⟩ ∧
    ((sceneProgressAt samplePs 0 samplePs_pos).next = none ↔ 0 = samplePs.length - 1) ∧
    ((sceneProgressAt samplePs 0 samplePs_pos).previous = none ↔ 0 = 0) :=
  scene_progress_neighbors samplePs 0 samplePs_pos

/-- C8: `gestureResponseDistance` accepts independent per-direction
overrides; without an override the distance used for the horizontal gesture
direction is 25 and the one used for the vertical gesture direction is 135,
and an override replaces exactly its own direction's distance. -/
theorem gestureResponseDistance_defaults :
    resolveGestureResponseDistance .horizontal ⟨none, none⟩ = 25 ∧
    resolveGestureResponseDistance .vertical ⟨none, none⟩ = 135 ∧
    (∀ (d : Rat) (o : Option Rat),
      resolveGestureResponseDistance .horizontal ⟨some d, o⟩ = d) ∧
    (∀ (d : Rat) (o : Option Rat),
      resolveGestureResponseDistance .vertical ⟨o, some d⟩ = d) :=
  ⟨rfl, rfl, fun _ _ => rfl, fun _ _ => rfl⟩

/-- C9: the keyboard manager is enabled for every value of
`keyboardHandlingEnabled` except the exact value `false`; in particular the
`undefined` default keeps it enabled. -/
theorem keyboardHandling_default_enabled :
    keyboardManagerEnabled none = true ∧
    keyboardManagerEnabled (some true) = true ∧
    keyboardManagerEnabled (some false) = false ∧
    (∀ v : Option Bool, keyboardManagerEnabled v = true ↔ v ≠ some false) := by
  refine ⟨rfl, rfl, rfl, fun v => ?_⟩
  cases v with
  | none => simp [keyboardManagerEnabled]
  | some b => cases b <;> simp [keyboardManagerEnabled]

/-- C10: the tab-press reset is never dispatched synchronously during event
delivery (the synchronous listener phase dispatches nothing and only captures
the focus flag), and the deferred frame callback rechecks `defaultPrevented`
at frame time, so `preventDefault` called by a later listener before the
frame still suppresses the dispatch. -/
theorem tabPress_deferred_decision :
    (∀ isFocusedNow : Bool, (tabPressListenerSync isFocusedNow).1 = []) ∧
    (∀ isFocusedNow : Bool, (tabPressListenerSync isFocusedNow).2 = isFocusedNow) ∧
    (∀ (index : Nat) (stateKey : String) (isFocusedNow : Bool),
      tabPressBehavior index stateKey isFocusedNow true = none) := by
  refine ⟨fun _ => rfl, fun _ => rfl, fun index stateKey isFocusedNow => ?_⟩
  unfold tabPressBehavior tabPressFrameCallback tabPressListenerSync
  simp

end StackNav
